import Mathlib

/-!
Verification of the command-execution core of `pacaptr` (`src/exec.rs`).

The Rust code is shallowly embedded:
* `Cmd` mirrors `exec::Cmd` (fields `sudo`, `cmd`, `kws`, `flags`; the
  first field is spelled `sudo'` because `sudo` is a reserved token here).
* `build` mirrors `Cmd::build`; the panicking `.expect` in the
  non-elevated branch with an empty command is modelled as `none`.
* `display` mirrors the `Display for Cmd` impl.
* `execTee` mirrors the `exec_tee!` loop; the source stream is a list of
  `Except` chunks (Err = a read failure), and a possible failure of a
  write to the live sink is given by `liveErr`.  Both sink contents are
  threaded so that the live sink output is observable.
* `execPromptGate` mirrors the prompt-and-state part of `Cmd::exec_prompt`,
  with the process-wide `ALL_YES` boolean passed in and returned
  explicitly, and stdin modelled as a list of input lines (char lists).
* `exec` mirrors `Cmd::exec`, with the child process modelled by a
  `Child` record describing what the OS would deliver.
* `grep` mirrors `exec::grep`, with the external regex engine abstracted
  as a `compile` function; `Regex::new(pat).unwrap()` panicking on a bad
  pattern is modelled as `none`.
-/

namespace Pacaptr

/-- Representation of what a command returns (`exec::Output`): captured
bytes plus `some code` for a normal exit, `none` for a signal. -/
structure Output where
  contents : List Nat
  code : Option Int
  deriving Repr, DecidableEq

/-- The `Default` impl for `Output`: empty contents, exit code 0. -/
def Output.default : Output := ⟨[], some 0⟩

/-- A command in `command-keywords-flags` form (`exec::Cmd`). -/
structure Cmd where
  sudo' : Bool
  cmd : List String
  kws : List String
  flags : List String
  deriving Repr, DecidableEq

/-- Whether the command needs `sudo -S` (`Cmd::needs_sudo`); the external
`is_root()` query is passed in as a boolean. -/
def needsSudo (c : Cmd) (isRoot : Bool) : Bool :=
  c.sudo' && !isRoot

/-- Conversion of a `Cmd` into a spawn specification (`Cmd::build`).
In the elevated branch the program is `sudo` with `-S`, then the command
tokens, then flags, then keywords.  In the non-elevated branch the first
command token is the program; an empty command makes the `.expect` there
panic, modelled as `none`. -/
def build (c : Cmd) (isRoot : Bool) : Option (String × List String) :=
  if needsSudo c isRoot then
    some ("sudo", "-S" :: (c.cmd ++ c.flags ++ c.kws))
  else
    match c.cmd with
    | [] => none
    | p :: sub => some (p, sub ++ c.flags ++ c.kws)

/-- Rendering of a `Cmd` (`impl Display for Cmd`): an optional
`"sudo -S "` lead string, then command tokens, keywords and flags joined
by single spaces. -/
def display (c : Cmd) (isRoot : Bool) : String :=
  (if needsSudo c isRoot then "sudo -S " else "")
    ++ String.intercalate " " (c.cmd ++ c.kws ++ c.flags)

/-- The `exec_tee!` loop.  The source stream is a list of chunk results
(`Err e` = a failed read, surfaced by the `?` on `mb?`); `liveErr b`
gives the error of the `write_all` of chunk `b` to the live sink inside
`try_join!`, if that write fails.  The accumulated contents of the live
sink and of the capture sink are threaded as `live` and `cap`; on any
failure the loop returns early with the bare error, so neither sink
content is part of the result. -/
def execTee (mute : Bool) (liveErr : List Nat → Option Nat) :
    List (Except Nat (List Nat)) → List Nat → List Nat →
    Except Nat (List Nat × List Nat)
  | [], live, cap => .ok (live, cap)
  | .error e :: _, _, _ => .error e
  | .ok b :: rest, live, cap =>
    if mute then
      execTee mute liveErr rest live (cap ++ b)
    else
      match liveErr b with
      | some e => .error e
      | none => execTee mute liveErr rest (live ++ b) (cap ++ b)

/-- Test for a failure event in a tee run: a read error in the stream,
or (when not muted) a chunk whose live-sink write fails. -/
def teeHasFailure (mute : Bool) (liveErr : List Nat → Option Nat) :
    List (Except Nat (List Nat)) → Bool
  | [] => false
  | .error _ :: _ => true
  | .ok b :: rest => (!mute && (liveErr b).isSome) || teeHasFailure mute liveErr rest

/-- Drop the last element of a char list when it is `c` (one
`if let Some(c) = answer.chars().next_back() { answer.pop(); }` step). -/
def popIf (c : Char) (l : List Char) : List Char :=
  if l.getLast? = some c then l.dropLast else l

/-- The per-line normalisation in `prompt`: optional lowercasing, then
popping a trailing line feed, then a trailing carriage return. -/
def normLine (caseSensitive : Bool) (line : List Char) : List Char :=
  popIf '\r' (popIf '\n' (if caseSensitive then line else line.map Char.toLower))

/-- The read loop of `exec::prompt`: keep reading lines until one,
normalised, is among the expected answers, and return that normalised
answer.  Stdin is a list of lines; if it runs out the real loop blocks
forever, modelled as `none`. -/
def promptLoop (caseSensitive : Bool) (expected : List (List Char)) :
    List (List Char) → Option (List Char)
  | [] => none
  | line :: rest =>
    let a := normLine caseSensitive line
    if a ∈ expected then some a else promptLoop caseSensitive expected rest

/-- The expected answers passed by `exec_prompt`:
`&["", "y", "yes", "a", "all", "n", "no"]`. -/
def expectedAnswers : List (List Char) :=
  [[], ['y'], ['y', 'e', 's'], ['a'], ['a', 'l', 'l'], ['n'], ['n', 'o']]

/-- Initial value of the process-wide `ALL_YES` flag
(`Mutex::new(false)` in `exec_prompt`). -/
def allYesInit : Bool := false

/-- Result of one pass through the gate part of `exec_prompt`. -/
inductive GateOut where
  /-- The prompt loop never got an expected answer (blocks forever). -/
  | hangs
  /-- The `unreachable!()` arm of the answer match was taken. -/
  | panics
  /-- Normal outcome: new `ALL_YES` value, whether to proceed, and
  whether interactive I/O happened. -/
  | done (newAllYes proceed prompted : Bool)
  deriving Repr, DecidableEq

/-- The confirmation-gate part of `exec_prompt`: under the `ALL_YES`
lock, either short-circuit to proceed, or prompt and match the
(re-lowercased) answer. -/
def execPromptGate (allYes : Bool) (inputs : List (List Char)) : GateOut :=
  if allYes then .done true true false
  else
    match promptLoop false expectedAnswers inputs with
    | none => .hangs
    | some ans =>
      let a := ans.map Char.toLower
      if a = [] ∨ a = ['y'] ∨ a = ['y', 'e', 's'] then .done allYes true true
      else if a = ['a'] ∨ a = ['a', 'l', 'l'] then .done true true true
      else if a = ['n'] ∨ a = ['n', 'o'] then .done false false true
      else .panics

/-- Answer the gate would act on for a given stdin: the prompt loop
result after the extra `.to_lowercase()` in `exec_prompt`. -/
def gateAnswer (inputs : List (List Char)) : Option (List Char) :=
  (promptLoop false expectedAnswers inputs).map (List.map Char.toLower)

/-- Errors a session can return (the `anyhow` errors of `exec.rs`,
split by site). -/
inductive ExecErr where
  /-- The `spawn()` call failed. -/
  | spawnFailed
  /-- An I/O error escaped the tee loop. -/
  | ioFailure (e : Nat)
  /-- Waiting on the child (`child.wait()`) itself failed. -/
  | waitFailed
  deriving Repr, DecidableEq

/-- What the OS delivers for one child process: whether `spawn` works,
the merged stdout+stderr chunk stream (arrival order as observed by the
host), the stderr-only chunk stream, and the `wait` result
(`ok (some n)` exit code, `ok none` signal, `error ()` failed wait). -/
structure Child where
  canSpawn : Bool
  merged : List (Except Nat (List Nat))
  errChunks : List (Except Nat (List Nat))
  wait : Except Unit (Option Int)
  deriving Repr

/-- The session of `Cmd::exec_checkall`: build (panics on empty
non-elevated command, modelled as the outer `none`), spawn, tee the
merged stream against console stdout and the capture buffer, then join
with the wait result. -/
def execCheckall (c : Cmd) (isRoot : Bool) (mute : Bool)
    (liveErr : List Nat → Option Nat) (child : Child) :
    Option (Except ExecErr Output) :=
  match build c isRoot with
  | none => none
  | some _ =>
    some <|
      if child.canSpawn then
        match execTee mute liveErr child.merged [] [] with
        | .error e => .error (.ioFailure e)
        | .ok (_, cap) =>
          match child.wait with
          | .error _ => .error .waitFailed
          | .ok code => .ok ⟨cap, code⟩
      else .error .spawnFailed

/-- The session of `Cmd::exec_checkerr`: like `execCheckall` but only
stderr is piped and teed. -/
def execCheckerr (c : Cmd) (isRoot : Bool) (mute : Bool)
    (liveErr : List Nat → Option Nat) (child : Child) :
    Option (Except ExecErr Output) :=
  match build c isRoot with
  | none => none
  | some _ =>
    some <|
      if child.canSpawn then
        match execTee mute liveErr child.errChunks [] [] with
        | .error e => .error (.ioFailure e)
        | .ok (_, cap) =>
          match child.wait with
          | .error _ => .error .waitFailed
          | .ok code => .ok ⟨cap, code⟩
      else .error .spawnFailed

/-- The five execution modes (`exec::Mode`). -/
inductive Mode where
  | printCmd
  | mute
  | checkAll
  | checkErr
  | prompt
  deriving Repr, DecidableEq

/-- Result of `Cmd::exec` as observed from outside: either the prompt
hangs, or something panicked, or a result was returned together with
whether a spawn was attempted and the new `ALL_YES` value. -/
inductive ExecOut where
  | hangs
  | panicked
  | res (spawned : Bool) (newAllYes : Bool) (r : Except ExecErr Output)
  deriving Repr

/-- Lift a session result into an `ExecOut` with a spawn attempt
recorded. -/
def sessionOut (newAllYes : Bool) : Option (Except ExecErr Output) → ExecOut
  | none => .panicked
  | some r => .res true newAllYes r

/-- The dispatcher `Cmd::exec`: select the recipe for the mode.
`PrintCmd` only prints the rendered command and returns the default
output; `Prompt` consults the gate and on a negative answer skips the
spawn, returning the default output. -/
def exec (c : Cmd) (mode : Mode) (isRoot allYes : Bool)
    (inputs : List (List Char)) (liveErr : List Nat → Option Nat)
    (child : Child) : ExecOut :=
  match mode with
  | .printCmd => .res false allYes (.ok Output.default)
  | .mute => sessionOut allYes (execCheckall c isRoot true liveErr child)
  | .checkAll => sessionOut allYes (execCheckall c isRoot false liveErr child)
  | .checkErr => sessionOut allYes (execCheckerr c isRoot false liveErr child)
  | .prompt =>
    match execPromptGate allYes inputs with
    | .hangs => .hangs
    | .panics => .panicked
    | .done newAllYes proceed _ =>
      if proceed then sessionOut newAllYes (execCheckerr c isRoot false liveErr child)
      else .res false newAllYes (.ok Output.default)

/-- An already-compiled regex, abstracted to its matching behaviour
(the `regex` crate is external to the repository). -/
structure RegexM where
  isMatch : String → Bool

/-- Rust `str::lines`: split on line feeds, with no trailing empty line
for a trailing line feed, and any final carriage return of each line
removed. -/
def rustLines (s : String) : List String :=
  let parts := s.splitOn "\n"
  let parts := if parts.getLast? = some "" then parts.dropLast else parts
  parts.map fun p => if p.endsWith "\r" then p.dropRight 1 else p

/-- The `exec::grep` function: compile every pattern
(`Regex::new(pat).unwrap()` panics on a bad pattern, modelled as the
outer `none`), then keep the lines of `text` matched by every regex. -/
def grep (compile : String → Option RegexM) (text : String)
    (patterns : List String) : Option (List String) :=
  match patterns.mapM compile with
  | none => none
  | some rs => some ((rustLines text).filter fun line => rs.all fun r => r.isMatch line)

/-- C1: for a command with non-empty `cmd` tokens, `build` yields, when
elevation is needed, program `sudo` with args `-S`, then the command
tokens, then the flags, then the keywords (flags strictly before
keywords); when elevation is not needed, the first command token as the
program with the remaining tokens, then flags, then keywords as args. -/
theorem build_spawn_spec_correct (c : Cmd) (isRoot : Bool) (h : c.cmd ≠ []) :
    (needsSudo c isRoot = true →
      build c isRoot = some ("sudo", "-S" :: (c.cmd ++ c.flags ++ c.kws)))
    ∧ (needsSudo c isRoot = false →
      build c isRoot = some (c.cmd.headI, c.cmd.tail ++ c.flags ++ c.kws)) := by
  constructor
  · intro hs
    simp [build, hs]
  · intro hs
    cases hc : c.cmd with
    | nil => exact absurd hc h
    | cons p sub => simp [build, hs, hc]

theorem build_spawn_spec_correct_witness :
    build ⟨true, ["zypper", "install"], ["curl"], ["-y"]⟩ false
      = some ("sudo", ["-S", "zypper", "install", "-y", "curl"])
    ∧ build ⟨false, ["zypper", "install"], ["curl"], ["-y"]⟩ false
      = some ("zypper", ["install", "-y", "curl"]) :=
  ⟨(build_spawn_spec_correct ⟨true, ["zypper", "install"], ["curl"], ["-y"]⟩ false
      (by simp)).1 rfl,
   (build_spawn_spec_correct ⟨false, ["zypper", "install"], ["curl"], ["-y"]⟩ false
      (by simp)).2 rfl⟩

/-- C2 counterexample: a command with empty `cmd` tokens whose elevation
is needed does NOT fail at build time: `build` succeeds, producing
`sudo` with `-S`, the flags and the keywords. -/
theorem build_empty_elevated_succeeds :
    build ⟨true, [], ["curl"], ["-y"]⟩ false = some ("sudo", ["-S", "-y", "curl"]) :=
  rfl

/-- C2 amended: with empty `cmd` tokens, the elevated branch of `build`
succeeds (no check at all), and the non-elevated branch panics via
`.expect` (modelled as `none`) instead of returning a typed error. -/
theorem build_empty_amended (c : Cmd) (isRoot : Bool) (h : c.cmd = []) :
    build c isRoot
      = if needsSudo c isRoot then some ("sudo", "-S" :: (c.flags ++ c.kws))
        else none := by
  unfold build
  rw [h]
  split <;> rfl

theorem build_empty_amended_witness :
    build ⟨false, [], ["curl"], ["-y"]⟩ true = none :=
  build_empty_amended ⟨false, [], ["curl"], ["-y"]⟩ true rfl

/-- C3: over any stream of chunks with no I/O failure, the tee with
`mute = false` appends the identical full stream content to the live
sink and to the capture sink, and with `mute = true` the live sink
receives nothing while the capture sink still receives everything. -/
theorem tee_mute_content (chunks : List (List Nat)) (live cap : List Nat) :
    execTee false (fun _ => none) (chunks.map .ok) live cap
        = .ok (live ++ chunks.flatten, cap ++ chunks.flatten)
    ∧ execTee true (fun _ => none) (chunks.map .ok) live cap
        = .ok (live, cap ++ chunks.flatten) := by
  induction chunks generalizing live cap with
  | nil => simp [execTee]
  | cons b rest ih =>
    constructor
    · have := (ih (live ++ b) (cap ++ b)).1
      simpa [execTee, List.append_assoc] using this
    · have := (ih live (cap ++ b)).2
      simpa [execTee, List.append_assoc] using this

theorem execTee_error_of_failure (mute : Bool) (liveErr : List Nat → Option Nat) :
    ∀ (src : List (Except Nat (List Nat))) (live cap : List Nat),
      teeHasFailure mute liveErr src = true →
      ∃ e, execTee mute liveErr src live cap = .error e := by
  intro src
  induction src with
  | nil => intro live cap h; simp [teeHasFailure] at h
  | cons x rest ih =>
    intro live cap h
    match x with
    | .error e => exact ⟨e, rfl⟩
    | .ok b =>
      simp only [teeHasFailure, Bool.or_eq_true, Bool.and_eq_true, Bool.not_eq_true'] at h
      cases hm : mute with
      | true =>
        subst hm
        rcases h with ⟨hf, _⟩ | h
        · exact absurd hf (by simp)
        · simpa [execTee] using ih live (cap ++ b) h
      | false =>
        subst hm
        cases hlb : liveErr b with
        | some e => exact ⟨e, by simp [execTee, hlb]⟩
        | none =>
          rcases h with ⟨_, hf⟩ | h
          · rw [hlb] at hf; exact absurd hf (by simp)
          · simpa [execTee, hlb] using ih (live ++ b) (cap ++ b) h

/-- C7: if the stream has a read failure, or a chunk whose live-sink
write fails while unmuted, the tee aborts with the I/O error and returns
no sink contents at all, and a session whose merged stream has such a
failure surfaces the I/O error rather than an `Output` — the capture
accumulated before the failure is never returned. -/
theorem tee_failure_discards_capture (mute : Bool) (liveErr : List Nat → Option Nat)
    (src : List (Except Nat (List Nat))) (live cap : List Nat)
    (h : teeHasFailure mute liveErr src = true) :
    (∃ e, execTee mute liveErr src live cap = .error e)
    ∧ ∀ (c : Cmd) (isRoot : Bool) (child : Child),
        child.merged = src → child.canSpawn = true →
        (build c isRoot).isSome = true →
        ∃ e, execCheckall c isRoot mute liveErr child = some (.error (.ioFailure e)) := by
  constructor
  · exact execTee_error_of_failure mute liveErr src live cap h
  · intro c isRoot child hm hs hb
    rcases Option.isSome_iff_exists.mp hb with ⟨spec, hspec⟩
    rcases execTee_error_of_failure mute liveErr src [] [] h with ⟨e, he⟩
    refine ⟨e, ?_⟩
    simp [execCheckall, hspec, hs, hm, he]

theorem tee_failure_discards_capture_witness :
    ∃ e, execTee false (fun _ => none) [Except.ok [1], Except.error 7] [] []
          = .error e :=
  (tee_failure_discards_capture false (fun _ => none)
    [Except.ok [1], Except.error 7] [] [] rfl).1

/-- C4: the `ALL_YES` flag starts `false`; once it is `true` every later
prompt-mode call immediately proceeds with no interactive I/O and keeps
the flag `true`; and a call that turns the flag from `false` to `true`
can only have done so on an `a`/`all` answer. -/
theorem confirmation_gate_monotonic :
    allYesInit = false
    ∧ (∀ inputs, execPromptGate true inputs = .done true true false)
    ∧ (∀ inputs n p pr, execPromptGate false inputs = .done n p pr → n = true →
        gateAnswer inputs = some ['a'] ∨ gateAnswer inputs = some ['a', 'l', 'l']) := by
  refine ⟨rfl, fun inputs => rfl, ?_⟩
  intro inputs n p pr h hn
  subst hn
  simp only [execPromptGate, Bool.false_eq_true, if_false] at h
  cases hp : promptLoop false expectedAnswers inputs with
  | none => rw [hp] at h; cases h
  | some ans =>
    rw [hp] at h
    simp only at h
    have hga : gateAnswer inputs = some (ans.map Char.toLower) := by
      simp [gateAnswer, hp]
    split at h
    · cases h
    · split at h
      · next hcond =>
        rcases hcond with h1 | h1
        · exact Or.inl (by rw [hga, h1])
        · exact Or.inr (by rw [hga, h1])
      · split at h
        · cases h
        · cases h

theorem confirmation_gate_monotonic_witness :
    gateAnswer [['a', '\n']] = some ['a'] ∨ gateAnswer [['a', '\n']] = some ['a', 'l', 'l'] :=
  confirmation_gate_monotonic.2.2 [['a', '\n']] true true true (by decide) rfl

/-- C9: whenever the prompt read loop returns, its (normalised) result
is a member of the expected answers, and consequently the
`unreachable!()` fallback arm of the answer match in `exec_prompt` is
never taken. -/
theorem prompt_result_in_expected :
    (∀ (cs : Bool) (expected : List (List Char)) (inputs : List (List Char)) a,
        promptLoop cs expected inputs = some a → a ∈ expected)
    ∧ ∀ (allYes : Bool) (inputs : List (List Char)),
        execPromptGate allYes inputs ≠ .panics := by
  have hmem : ∀ (cs : Bool) (expected : List (List Char)) (inputs : List (List Char)) a,
      promptLoop cs expected inputs = some a → a ∈ expected := by
    intro cs expected inputs
    induction inputs with
    | nil => intro a h; cases h
    | cons line rest ih =>
      intro a h
      simp only [promptLoop] at h
      split at h
      · cases h; assumption
      · exact ih a h
  refine ⟨hmem, ?_⟩
  intro allYes inputs
  cases allYes with
  | true => simp [execPromptGate]
  | false =>
    cases hp : promptLoop false expectedAnswers inputs with
    | none => simp [execPromptGate, hp]
    | some ans =>
      have h := hmem false expectedAnswers inputs ans hp
      simp only [execPromptGate, Bool.false_eq_true, if_false, hp]
      revert h
      simp only [expectedAnswers, List.mem_cons, List.not_mem_nil, or_false]
      rintro (rfl | rfl | rfl | rfl | rfl | rfl | rfl) <;> decide

theorem prompt_result_in_expected_witness :
    (['y', 'e', 's'] : List Char) ∈ expectedAnswers :=
  prompt_result_in_expected.1 false expectedAnswers [['y', 'E', 'S', '\n']]
    ['y', 'e', 's'] (by decide)

/-- C6: print-only mode spawns nothing and returns the default output
(empty contents, exit code 0) as a success, whatever the command and the
child would be; prompt mode with an `n`/`no` answer likewise skips the
spawn and returns the default output as a success. -/
theorem exec_skip_is_default_ok (c : Cmd) (isRoot allYes : Bool)
    (inputs : List (List Char)) (liveErr : List Nat → Option Nat) (child : Child) :
    exec c .printCmd isRoot allYes inputs liveErr child
        = .res false allYes (.ok Output.default)
    ∧ Output.default.contents = [] ∧ Output.default.code = some 0
    ∧ ∀ ans, promptLoop false expectedAnswers inputs = some ans →
        (ans.map Char.toLower = ['n'] ∨ ans.map Char.toLower = ['n', 'o']) →
        allYes = false →
        exec c .prompt isRoot allYes inputs liveErr child
          = .res false false (.ok Output.default) := by
  refine ⟨rfl, rfl, rfl, ?_⟩
  intro ans hp hd hy
  subst hy
  rcases hd with h | h <;>
    simp [exec, execPromptGate, hp, h]

theorem exec_skip_is_default_ok_witness :
    exec ⟨false, ["pacman"], [], []⟩ .prompt false false [['n', '\n']]
        (fun _ => none) ⟨true, [], [], .ok (some 0)⟩
      = .res false false (.ok Output.default) :=
  (exec_skip_is_default_ok ⟨false, ["pacman"], [], []⟩ false false [['n', '\n']]
      (fun _ => none) ⟨true, [], [], .ok (some 0)⟩).2.2.2
    ['n'] (by decide) (Or.inl (by decide)) rfl

/-- C8: the rendering is the `"sudo -S "` lead string followed by
command tokens, keywords and flags joined by spaces exactly when
elevation is needed, and the plain joined tokens otherwise; elevation is
never needed when `sudo` was not requested, nor when the process is
already root. -/
theorem display_sudo_iff_needed (c : Cmd) (isRoot : Bool) :
    (needsSudo c isRoot = true →
      display c isRoot
        = "sudo -S " ++ String.intercalate " " (c.cmd ++ c.kws ++ c.flags))
    ∧ (needsSudo c isRoot = false →
      display c isRoot = String.intercalate " " (c.cmd ++ c.kws ++ c.flags))
    ∧ (c.sudo' = false → needsSudo c isRoot = false)
    ∧ (isRoot = true → needsSudo c isRoot = false) := by
  refine ⟨fun hs => by simp [display, hs], fun hs => ?_, fun hs => ?_, fun hs => ?_⟩
  · simp [display, hs]
  · simp [needsSudo, hs]
  · simp [needsSudo, hs]

theorem display_sudo_iff_needed_witness :
    display ⟨true, ["apt"], ["curl"], []⟩ false
      = "sudo -S " ++ String.intercalate " " (["apt"] ++ ["curl"] ++ [])
    ∧ display ⟨false, ["apt"], ["curl"], []⟩ false
      = String.intercalate " " (["apt"] ++ ["curl"] ++ [])
    ∧ needsSudo ⟨true, ["apt"], ["curl"], []⟩ true = false :=
  ⟨(display_sudo_iff_needed ⟨true, ["apt"], ["curl"], []⟩ false).1 rfl,
   (display_sudo_iff_needed ⟨false, ["apt"], ["curl"], []⟩ false).2.1 rfl,
   (display_sudo_iff_needed ⟨true, ["apt"], ["curl"], []⟩ true).2.2.2 rfl⟩

/-- C10: when every pattern compiles, `grep` returns exactly the lines
of the text matched by every pattern, in original order (a sublist of
the lines), and with no patterns at all it returns every line. -/
theorem grep_matching_lines (compile : String → Option RegexM) (text : String)
    (patterns : List String) (rs : List RegexM)
    (hc : patterns.mapM compile = some rs) :
    grep compile text patterns
        = some ((rustLines text).filter fun line => rs.all fun r => r.isMatch line)
    ∧ ((rustLines text).filter fun line => rs.all fun r => r.isMatch line).Sublist
        (rustLines text)
    ∧ grep compile text [] = some (rustLines text) := by
  have h0 : ([] : List String).mapM compile = some [] := rfl
  refine ⟨by unfold grep; rw [hc], List.filter_sublist _, ?_⟩
  unfold grep
  rw [h0]
  simp

theorem grep_matching_lines_witness :
    grep (fun _ => some ⟨fun _ => true⟩) "ab\ncd" ["x"]
      = some ((rustLines "ab\ncd").filter fun line =>
          [(⟨fun _ => true⟩ : RegexM)].all fun r => r.isMatch line) :=
  (grep_matching_lines (fun _ => some ⟨fun _ => true⟩) "ab\ncd" ["x"]
    [⟨fun _ => true⟩] rfl).1

end Pacaptr
